import Mathlib

/-!
Verification of the query/predicate engine and the transaction wire format
of `xelis_common` (files `src/api/query.rs` and `src/transaction/mod.rs`).

The predicate types (`QueryNumber`, `QueryValue`, `Query`, `QueryElement`)
and their `verify` functions are translated directly from
`src/api/query.rs`.  The document model (`DataValue`, `DataElement`,
`DataType`), which lives outside the provided sources, is modelled from the
spec (section 3).  Machine integers are embedded as `Nat` with explicit
`% 2 ^ w` where the Rust code performs an `as` cast.
-/

namespace Xelis

/-- Modelled from the spec: the scalar value type of the document model
(`DataValue` in `src/api/mod.rs`, not under the provided sources).  A closed
set of variants: unsigned integers of widths 8/16/32/64/128 carrying their
native value, plus the non-numeric variants (strings, booleans) that are
opaque to the range predicate.  Structural equality is derived: variant tag
and value must both match. -/
inductive DataValue where
  | U8 (v : Nat)
  | U16 (v : Nat)
  | U32 (v : Nat)
  | U64 (v : Nat)
  | U128 (v : Nat)
  | Str (s : String)
  | Boolean (b : Bool)
deriving DecidableEq

/-- Modelled from the spec: the type-tag enumeration (`DataType`),
distinguishing each scalar width and each document shape.  The tag of an
empty leaf is not pinned down by the spec; it is modelled as a dedicated
`Null` tag (no claim depends on this choice). -/
inductive DataType where
  | Null
  | Bool
  | String
  | U8
  | U16
  | U32
  | U64
  | U128
  | Array
  | Fields
deriving DecidableEq

/-- Modelled from the spec: the recursive document type (`DataElement`),
with three shapes: a leaf wrapping an optional scalar, a field map from
scalar keys to nested documents, and an ordered array of nested documents.
The field map (an `IndexMap` in the source) is modelled as an association
list with unique keys and first-match lookup. -/
inductive DataElement where
  | Value (v : Option DataValue)
  | Array (elements : List DataElement)
  | Fields (fields : List (DataValue × DataElement))

/-- Modelled from the spec: the scalar's type tag. -/
def DataValue.kind : DataValue → DataType
  | .U8 _ => .U8
  | .U16 _ => .U16
  | .U32 _ => .U32
  | .U64 _ => .U64
  | .U128 _ => .U128
  | .Str _ => .String
  | .Boolean _ => .Bool

/-- Modelled from the spec: the document's type tag, reflecting its current
shape/leaf-type. -/
def DataElement.kind : DataElement → DataType
  | .Value (some v) => v.kind
  | .Value none => .Null
  | .Array _ => .Array
  | .Fields _ => .Fields

/-- Modelled from the spec: the canonical string rendering of a scalar
(`Display`/`to_string` in Rust): decimal digits for the numeric widths, the
string itself for strings, `true`/`false` for booleans. -/
def DataValue.to_string : DataValue → String
  | .U8 v => toString v
  | .U16 v => toString v
  | .U32 v => toString v
  | .U64 v => toString v
  | .U128 v => toString v
  | .Str s => s
  | .Boolean b => if b then "true" else "false"

mutual
/-- Structural equality on documents, mirroring Rust's derived `PartialEq`
(exact recursive match, including nested scalar widths). -/
def DataElement.beq : DataElement → DataElement → Bool
  | .Value a, .Value b => a == b
  | .Array a, .Array b => DataElement.beqList a b
  | .Fields a, .Fields b => DataElement.beqFields a b
  | _, _ => false

/-- Pointwise structural equality of document lists. -/
def DataElement.beqList : List DataElement → List DataElement → Bool
  | [], [] => true
  | x :: xs, y :: ys => DataElement.beq x y && DataElement.beqList xs ys
  | _, _ => false

/-- Pointwise structural equality of field lists (key and value). -/
def DataElement.beqFields :
    List (DataValue × DataElement) → List (DataValue × DataElement) → Bool
  | [], [] => true
  | (k, x) :: xs, (l, y) :: ys =>
      k == l && DataElement.beq x y && DataElement.beqFields xs ys
  | _, _ => false
end

/-- Lookup in the field map (`IndexMap::get` keyed by scalar equality):
first entry whose key equals `key`. -/
def fieldsGet (fields : List (DataValue × DataElement)) (key : DataValue) :
    Option DataElement :=
  match fields with
  | [] => none
  | (k, v) :: rest => if k = key then some v else fieldsGet rest key

/-- Rust's `str::starts_with`: the rendered operand is a prefix of the
rendered input.  `strStarts s p` is `s.starts_with(p)`. -/
def strStarts (s p : String) : Bool :=
  p.data.isPrefixOf s.data

/-- Rust's `str::contains`: the operand occurs as a contiguous substring
anywhere in the input.  `strContainsStr s p` is `s.contains(p)`. -/
def strContainsStr (s p : String) : Bool :=
  s.data.tails.any (fun t => p.data.isPrefixOf t)

/-- The `QueryNumber` from `src/api/query.rs`: the four range operators, each
carrying a `usize` threshold (modelled as the `Nat` it denotes, hence
`< 2 ^ 64`). -/
inductive QueryNumber where
  | Above (value : Nat)
  | AboveOrEqual (value : Nat)
  | Below (value : Nat)
  | BelowOrEqual (value : Nat)
deriving DecidableEq

/-- The `QueryNumber::verify` from `src/api/query.rs`.  Each arm compares at
the scalar's own width: the Rust code casts the `usize` threshold with
`as u8` / `as u16` / `as u32` (a truncating cast, `% 2 ^ w` here) and with
`as u64` / `as u128` (value-preserving for a 64-bit `usize`).  Non-numeric
scalars yield `false`. -/
def QueryNumber.verify : QueryNumber → DataValue → Bool
  | .Above value, v =>
    match v with
    | .U128 n => decide (n > value)
    | .U64 n => decide (n > value)
    | .U32 n => decide (n > value % 2 ^ 32)
    | .U16 n => decide (n > value % 2 ^ 16)
    | .U8 n => decide (n > value % 2 ^ 8)
    | _ => false
  | .AboveOrEqual value, v =>
    match v with
    | .U128 n => decide (n ≥ value)
    | .U64 n => decide (n ≥ value)
    | .U32 n => decide (n ≥ value % 2 ^ 32)
    | .U16 n => decide (n ≥ value % 2 ^ 16)
    | .U8 n => decide (n ≥ value % 2 ^ 8)
    | _ => false
  | .Below value, v =>
    match v with
    | .U128 n => decide (n < value)
    | .U64 n => decide (n < value)
    | .U32 n => decide (n < value % 2 ^ 32)
    | .U16 n => decide (n < value % 2 ^ 16)
    | .U8 n => decide (n < value % 2 ^ 8)
    | _ => false
  | .BelowOrEqual value, v =>
    match v with
    | .U128 n => decide (n ≤ value)
    | .U64 n => decide (n ≤ value)
    | .U32 n => decide (n ≤ value % 2 ^ 32)
    | .U16 n => decide (n ≤ value % 2 ^ 16)
    | .U8 n => decide (n ≤ value % 2 ^ 8)
    | _ => false

/-- The `QueryValue` from `src/api/query.rs`.  The compiled regex of the
`Pattern` variant is embedded as its match function (compilation happens at
decode time, outside evaluation). -/
inductive QueryValue where
  | Equal (expected : DataValue)
  | StartsWith (value : DataValue)
  | EndsWith (value : DataValue)
  | ContainsValue (value : DataValue)
  | Pattern (isMatch : String → Bool)
  | NumberOp (query : QueryNumber)

/-- The `QueryValue::verify` from `src/api/query.rs`.  Note the `EndsWith` arm:
the source calls `starts_with`, exactly as the line
`Self::EndsWith(value) => v.to_string().starts_with(&value.to_string())`
does. -/
def QueryValue.verify : QueryValue → DataValue → Bool
  | .Equal expected, v => decide (v = expected)
  | .StartsWith value, v => strStarts v.to_string value.to_string
  | .EndsWith value, v => strStarts v.to_string value.to_string
  | .ContainsValue value, v => strContainsStr v.to_string value.to_string
  | .Pattern pattern, v => pattern v.to_string
  | .NumberOp query, v => query.verify v

mutual
/-- The `Query` from `src/api/query.rs`.  The source constructor `Type` is
spelled `Typ` (`Type` is reserved in Lean); all others keep their names. -/
inductive Query where
  | Not (op : Query)
  | And (operations : List Query)
  | Or (operations : List Query)
  | Typ (expected : DataType)
  | Element (query : QueryElement)
  | Value (query : QueryValue)

/-- The `QueryElement` from `src/api/query.rs`: the structural predicates. -/
inductive QueryElement where
  | HasKey (key : DataValue) (value : Option Query)
  | ArrayLen (query : QueryNumber)
  | ContainsElement (query : DataElement)
end

mutual
/-- The `Query::verify_element` from `src/api/query.rs`: document-shaped
evaluation. -/
def Query.verify_element : Query → DataElement → Bool
  | .Element query, element => query.verify element
  | .Value query, element =>
    match element with
    | DataElement.Value (some value) => query.verify value
    | _ => false
  | .Not op, element => !(op.verify_element element)
  | .Or operations, element => Query.orElement operations element
  | .And operations, element => Query.andElement operations element
  | .Typ expected, element => decide (element.kind = expected)

/-- The `Or` loop of `verify_element`: short-circuits on the first `true`
child; the empty sequence yields `false`. -/
def Query.orElement : List Query → DataElement → Bool
  | [], _ => false
  | op :: rest, element => op.verify_element element || Query.orElement rest element

/-- The `And` loop of `verify_element`: short-circuits on the first `false`
child; the empty sequence yields `true`. -/
def Query.andElement : List Query → DataElement → Bool
  | [], _ => true
  | op :: rest, element => op.verify_element element && Query.andElement rest element

/-- The `QueryElement::verify` from `src/api/query.rs`.  `HasKey` looks the key
up in a field map and, when a nested query is present, delegates to its
document-shaped evaluation of the field's value; with no nested query the
`map` closure returns `false` even for a present key.  `ArrayLen` wraps the
array length as a `U64` scalar (the `usize` length of a real array is below
`2 ^ 64`, so the `as u64` cast is value-preserving).  `ContainsElement`
checks structural membership. -/
def QueryElement.verify : QueryElement → DataElement → Bool
  | .HasKey key value, data =>
    match data with
    | DataElement.Fields fields =>
      match fieldsGet fields key with
      | some v =>
        match value with
        | some query => query.verify_element v
        | none => false
      | none => false
    | _ => false
  | .ArrayLen query, data =>
    match data with
    | DataElement.Array array => query.verify (DataValue.U64 array.length)
    | _ => false
  | .ContainsElement query, data =>
    match data with
    | DataElement.Array array => array.any (fun e => DataElement.beq e query)
    | _ => false
end

mutual
/-- The `Query::verify_value` from `src/api/query.rs`: scalar-shaped
evaluation; a root `Element` node yields `false`. -/
def Query.verify_value : Query → DataValue → Bool
  | .Element _, _ => false
  | .Value query, value => query.verify value
  | .Not op, value => !(op.verify_value value)
  | .Or operations, value => Query.orValue operations value
  | .And operations, value => Query.andValue operations value
  | .Typ expected, value => decide (value.kind = expected)

/-- The `Or` loop of `verify_value`. -/
def Query.orValue : List Query → DataValue → Bool
  | [], _ => false
  | op :: rest, value => op.verify_value value || Query.orValue rest value

/-- The `And` loop of `verify_value`. -/
def Query.andValue : List Query → DataValue → Bool
  | [], _ => true
  | op :: rest, value => op.verify_value value && Query.andValue rest value
end

/-- The `Query::is_for_element` from `src/api/query.rs`: true exactly for a
root `Element` node. -/
def Query.is_for_element : Query → Bool
  | .Element _ => true
  | _ => false

/-- The numeric value of a scalar of a supported width, widened to the
common unsigned 128-bit range (`Nat` here); `none` for the non-numeric
variants.  This is the spec's `widen`, used to state the range-predicate
claims. -/
def DataValue.widen : DataValue → Option Nat
  | .U8 v => some v
  | .U16 v => some v
  | .U32 v => some v
  | .U64 v => some v
  | .U128 v => some v
  | _ => none

/-- The threshold as the code's `as` cast actually lands it at the scalar's
width: truncated `% 2 ^ w` for the widths narrower than the 64-bit `usize`,
unchanged for `U64`/`U128`. -/
def castThreshold (v : DataValue) (t : Nat) : Nat :=
  match v with
  | .U8 _ => t % 2 ^ 8
  | .U16 _ => t % 2 ^ 16
  | .U32 _ => t % 2 ^ 32
  | _ => t

/-! ### The binary wire boundary of `src/transaction/mod.rs`

The `Serializer` trait, its `Writer`/`Reader` and the fixed-size crypto
types (`Hash`, `CompressedPublicKey`, `CompressedCommitment`,
`CompressedHandle`) live outside the provided sources; they are modelled
here: a `Writer` appends to a byte sequence, a `Reader` consumes from its
front, multi-byte integers travel big-endian, a bool travels as the byte
1 or 0, and each crypto type is an opaque 32-byte value.  The
`write`/`read` functions for `TransferPayload`, `BurnPayload`,
`TransactionType` and `Transaction` are translated directly from
`src/transaction/mod.rs`. -/

/-- A byte sequence; each genuine byte is below 256. -/
abbrev Bytes := List Nat

/-- The `EXTRA_DATA_LIMIT_SIZE` from `src/transaction/mod.rs`. -/
def EXTRA_DATA_LIMIT_SIZE : Nat := 1024

/-- The `MAX_TRANSFER_COUNT` from `src/transaction/mod.rs`. -/
def MAX_TRANSFER_COUNT : Nat := 255

/-- The `ReaderError` (modelled from the spec: the serializer module is outside
the provided sources; only the variants `src/transaction/mod.rs` raises are
needed). -/
inductive ReaderError where
  | InvalidSize
  | InvalidValue
deriving DecidableEq

/-- Modelled serializer primitive: the big-endian bytes of a `u16` (the
truncation of a wider value to 16 bits is built into the arithmetic,
matching an `as u16` cast). -/
def u16be (n : Nat) : Bytes :=
  [n / 2 ^ 8 % 2 ^ 8, n % 2 ^ 8]

/-- Modelled serializer primitive: the big-endian bytes of a `u64`. -/
def u64be (n : Nat) : Bytes :=
  [n / 2 ^ 56 % 2 ^ 8, n / 2 ^ 48 % 2 ^ 8, n / 2 ^ 40 % 2 ^ 8,
   n / 2 ^ 32 % 2 ^ 8, n / 2 ^ 24 % 2 ^ 8, n / 2 ^ 16 % 2 ^ 8,
   n / 2 ^ 8 % 2 ^ 8, n % 2 ^ 8]

/-- Modelled reader primitive: take exactly `n` bytes from the front,
failing when fewer remain (`Reader::read_bytes`). -/
def readExact (n : Nat) (input : Bytes) : Except ReaderError (Bytes × Bytes) :=
  if n ≤ input.length then .ok (input.take n, input.drop n)
  else .error .InvalidSize

/-- Modelled reader primitive: one byte (`Reader::read_u8`). -/
def read_u8 (input : Bytes) : Except ReaderError (Nat × Bytes) :=
  match input with
  | [] => .error .InvalidSize
  | b :: rest => .ok (b, rest)

/-- Modelled reader primitive: a bool from one byte, 0 or 1
(`Reader::read_bool`). -/
def read_bool (input : Bytes) : Except ReaderError (Bool × Bytes) := do
  let (b, rest) ← read_u8 input
  match b with
  | 0 => .ok (false, rest)
  | 1 => .ok (true, rest)
  | _ => .error .InvalidValue

/-- Fold big-endian bytes back into a number. -/
def bytesToNat (bs : Bytes) : Nat :=
  bs.foldl (fun acc b => acc * 2 ^ 8 + b) 0

/-- Modelled reader primitive: a big-endian `u16` (`Reader::read_u16`). -/
def read_u16 (input : Bytes) : Except ReaderError (Nat × Bytes) := do
  let (bs, rest) ← readExact 2 input
  .ok (bytesToNat bs, rest)

/-- Modelled reader primitive: a big-endian `u64` (`Reader::read_u64`). -/
def read_u64 (input : Bytes) : Except ReaderError (Nat × Bytes) := do
  let (bs, rest) ← readExact 8 input
  .ok (bytesToNat bs, rest)

/-- Modelled from the spec: `Hash`, an opaque 32-byte value whose
serializer writes the bytes verbatim. -/
structure Hash where
  bytes : Bytes
deriving DecidableEq

/-- Modelled from the spec: `CompressedPublicKey`, an opaque 32-byte
value. -/
structure CompressedPublicKey where
  bytes : Bytes
deriving DecidableEq

/-- Modelled from the spec: `CompressedCommitment`, an opaque 32-byte
value. -/
structure CompressedCommitment where
  bytes : Bytes
deriving DecidableEq

/-- Modelled from the spec: `CompressedHandle`, an opaque 32-byte value. -/
structure CompressedHandle where
  bytes : Bytes
deriving DecidableEq

/-- Modelled reader for a 32-byte value. -/
def read32 (input : Bytes) : Except ReaderError (Bytes × Bytes) :=
  readExact 32 input

/-- The `TransferPayload` from `src/transaction/mod.rs` (without the
commented-out validity proof). -/
structure TransferPayload where
  asset : Hash
  destination : CompressedPublicKey
  extra_data : Option Bytes
  commitment : CompressedCommitment
  sender_handle : CompressedHandle
  receiver_handle : CompressedHandle
deriving DecidableEq

/-- The `BurnPayload` from `src/transaction/mod.rs`: an asset hash and a `u64`
amount. -/
structure BurnPayload where
  asset : Hash
  amount : Nat
deriving DecidableEq

/-- The `TransactionType` from `src/transaction/mod.rs`. -/
inductive TransactionType where
  | Transfers (txs : List TransferPayload)
  | Burn (payload : BurnPayload)
deriving DecidableEq

/-- The `Transaction` from `src/transaction/mod.rs` (without the commented-out
signature): a `u8` version, source key, payload, `u64` fee and nonce. -/
structure Transaction where
  version : Nat
  source : CompressedPublicKey
  data : TransactionType
  fee : Nat
  nonce : Nat
deriving DecidableEq

/-- The `Serializer::write` for `TransferPayload`: asset, destination, a
presence byte for the extra data followed (when present) by its `u16`
length (the `as u16` cast of a `usize`) and the bytes themselves, then
commitment and the two handles. -/
def TransferPayload.write (p : TransferPayload) : Bytes :=
  p.asset.bytes ++ p.destination.bytes ++
  (match p.extra_data with
   | some extra => 1 :: (u16be extra.length ++ extra)
   | none => [0]) ++
  p.commitment.bytes ++ p.sender_handle.bytes ++ p.receiver_handle.bytes

/-- The `Serializer::read` for `TransferPayload`: mirrors `write`, rejecting an
extra-data length above `EXTRA_DATA_LIMIT_SIZE`. -/
def TransferPayload.read (input : Bytes) :
    Except ReaderError (TransferPayload × Bytes) := do
  let (asset, input) ← read32 input
  let (destination, input) ← read32 input
  let (has_extra_data, input) ← read_bool input
  let (extra_data, input) ←
    if has_extra_data then do
      let (extra_data_size, input) ← read_u16 input
      if extra_data_size > EXTRA_DATA_LIMIT_SIZE then
        Except.error ReaderError.InvalidSize
      else do
        let (bs, input) ← readExact extra_data_size input
        Except.ok (some bs, input)
    else
      Except.ok (none, input)
  let (commitment, input) ← read32 input
  let (sender_handle, input) ← read32 input
  let (receiver_handle, input) ← read32 input
  .ok (⟨⟨asset⟩, ⟨destination⟩, extra_data, ⟨commitment⟩, ⟨sender_handle⟩,
        ⟨receiver_handle⟩⟩, input)

/-- The `Serializer::write` for `BurnPayload`: asset then `u64` amount. -/
def BurnPayload.write (p : BurnPayload) : Bytes :=
  p.asset.bytes ++ u64be p.amount

/-- The `Serializer::read` for `BurnPayload`. -/
def BurnPayload.read (input : Bytes) :
    Except ReaderError (BurnPayload × Bytes) := do
  let (asset, input) ← read32 input
  let (amount, input) ← read_u64 input
  .ok (⟨⟨asset⟩, amount⟩, input)

/-- The `for` loop of `TransactionType::write`: each transfer in order. -/
def writeTransfers : List TransferPayload → Bytes
  | [] => []
  | tx :: rest => tx.write ++ writeTransfers rest

/-- The read loop of `TransactionType::read`: exactly `count` transfers. -/
def readTransfers (count : Nat) (input : Bytes) :
    Except ReaderError (List TransferPayload × Bytes) :=
  match count with
  | 0 => .ok ([], input)
  | n + 1 => do
    let (tx, input) ← TransferPayload.read input
    let (rest, input) ← readTransfers n input
    .ok (tx :: rest, input)

/-- The `Serializer::write` for `TransactionType`: tag byte 0 for `Burn`,
tag byte 1 then the `u8` count (`txs.len() as u8`, a truncating cast) and
the transfers for `Transfers`. -/
def TransactionType.write : TransactionType → Bytes
  | .Burn payload => 0 :: payload.write
  | .Transfers txs => 1 :: (txs.length % 2 ^ 8) :: writeTransfers txs

/-- The `Serializer::read` for `TransactionType`: rejects an unknown tag and a
transfer count of zero or above `MAX_TRANSFER_COUNT`. -/
def TransactionType.read (input : Bytes) :
    Except ReaderError (TransactionType × Bytes) := do
  let (tag, input) ← read_u8 input
  match tag with
  | 0 => do
    let (payload, input) ← BurnPayload.read input
    .ok (TransactionType.Burn payload, input)
  | 1 => do
    let (txs_count, input) ← read_u8 input
    if txs_count = 0 ∨ txs_count > MAX_TRANSFER_COUNT then
      Except.error ReaderError.InvalidSize
    else do
      let (txs, input) ← readTransfers txs_count input
      Except.ok (TransactionType.Transfers txs, input)
  | _ => .error .InvalidValue

/-- The `Serializer::write` for `Transaction`: version byte, source, payload,
`u64` fee, `u64` nonce. -/
def Transaction.write (tx : Transaction) : Bytes :=
  tx.version % 2 ^ 8 :: (tx.source.bytes ++ tx.data.write ++ u64be tx.fee ++
    u64be tx.nonce)

/-- The `Serializer::read` for `Transaction`: rejects any version other
than 0. -/
def Transaction.read (input : Bytes) :
    Except ReaderError (Transaction × Bytes) := do
  let (version, input) ← read_u8 input
  if version ≠ 0 then
    Except.error ReaderError.InvalidValue
  else do
    let (source, input) ← read32 input
    let (data, input) ← TransactionType.read input
    let (fee, input) ← read_u64 input
    let (nonce, input) ← read_u64 input
    Except.ok (⟨version, ⟨source⟩, data, fee, nonce⟩, input)

/-- The representability bounds the Rust types impose on a
`TransferPayload`: 32-byte crypto values and (per claim C10) extra data of
at most `EXTRA_DATA_LIMIT_SIZE` bytes. -/
def TransferPayload.wf (p : TransferPayload) : Prop :=
  p.asset.bytes.length = 32 ∧ p.destination.bytes.length = 32 ∧
  p.commitment.bytes.length = 32 ∧ p.sender_handle.bytes.length = 32 ∧
  p.receiver_handle.bytes.length = 32 ∧
  ∀ extra ∈ p.extra_data, extra.length ≤ EXTRA_DATA_LIMIT_SIZE

/-- The bounds claim C10 places on the payload: a `Burn`, or between 1 and
`MAX_TRANSFER_COUNT` well-formed transfers. -/
def TransactionType.wf : TransactionType → Prop
  | .Burn payload => payload.asset.bytes.length = 32 ∧ payload.amount < 2 ^ 64
  | .Transfers txs =>
      1 ≤ txs.length ∧ txs.length ≤ MAX_TRANSFER_COUNT ∧
      ∀ tx ∈ txs, tx.wf

/-- The representability bounds on a whole `Transaction` (version 0 per
claim C10, a 32-byte source key, `u64` fee and nonce). -/
def Transaction.wf (tx : Transaction) : Prop :=
  tx.version = 0 ∧ tx.source.bytes.length = 32 ∧ tx.data.wf ∧
  tx.fee < 2 ^ 64 ∧ tx.nonce < 2 ^ 64

/-! ### The decode boundary of the predicate tree

Modelled from the spec: only the serde type declarations are under the
provided sources; the decoder itself (the generic key/value intermediate
tree, the shape table and decode priority of section 6, and the enforced
maximum nesting depth of sections 5 and 7) is modelled here from the
spec's words. -/

/-- Modelled from the spec: the structured intermediate value of the wire
encoding (a generic JSON-like key/value tree). -/
inductive JValue where
  | num (n : Nat)
  | str (s : String)
  | boolean (b : Bool)
  | arr (items : List JValue)
  | obj (fields : List (String × JValue))

mutual
/-- Nesting depth of a wire value: leaves have depth 1, a container is one
deeper than its deepest child. -/
def JValue.depth : JValue → Nat
  | .num _ => 1
  | .str _ => 1
  | .boolean _ => 1
  | .arr items => 1 + JValue.depthList items
  | .obj fields => 1 + JValue.depthFields fields

/-- Depth of the deepest item of an array. -/
def JValue.depthList : List JValue → Nat
  | [] => 0
  | v :: rest => max (JValue.depth v) (JValue.depthList rest)

/-- Depth of the deepest value of an object. -/
def JValue.depthFields : List (String × JValue) → Nat
  | [] => 0
  | (_, v) :: rest => max (JValue.depth v) (JValue.depthFields rest)
end

/-- Modelled from the spec: the three decode-time failures of section 7. -/
inductive DecodeError where
  | malformed
  | invalidPattern
  | excessiveNesting
deriving DecidableEq

/-- Modelled from the spec: decoding a scalar of the wire form (the
document model's own wire format is out of the spec's scope; numbers land
in the 64-bit width). -/
def decodeValue : JValue → Except DecodeError DataValue
  | .num n => .ok (DataValue.U64 n)
  | .str s => .ok (DataValue.Str s)
  | .boolean b => .ok (DataValue.Boolean b)
  | _ => .error .malformed

/-- Modelled from the spec: decoding a type tag from its lowercase
token. -/
def decodeType : JValue → Except DecodeError DataType
  | .str "bool" => .ok .Bool
  | .str "string" => .ok .String
  | .str "u8" => .ok .U8
  | .str "u16" => .ok .U16
  | .str "u32" => .ok .U32
  | .str "u64" => .ok .U64
  | .str "u128" => .ok .U128
  | .str "array" => .ok .Array
  | .str "fields" => .ok .Fields
  | _ => .error .malformed

/-- Modelled from the spec: the four bare `RangePredicate` shapes
(`above`, `above_or_equal`, `below`, `below_or_equal`). -/
def decodeRange : JValue → Except DecodeError QueryNumber
  | .obj [("above", .num n)] => .ok (.Above n)
  | .obj [("above_or_equal", .num n)] => .ok (.AboveOrEqual n)
  | .obj [("below", .num n)] => .ok (.Below n)
  | .obj [("below_or_equal", .num n)] => .ok (.BelowOrEqual n)
  | _ => .error .malformed

mutual
/-- Modelled from the spec: decoding a document. Fuel bounds the recursion
depth; running out is the excessive-nesting failure. -/
def decodeElement : Nat → JValue → Except DecodeError DataElement
  | 0, _ => .error .excessiveNesting
  | fuel + 1, j =>
    match j with
    | .arr items => do
      let es ← decodeElementList fuel items
      .ok (DataElement.Array es)
    | .obj fields => do
      let fs ← decodeElementFields fuel fields
      .ok (DataElement.Fields fs)
    | v => do
      let s ← decodeValue v
      .ok (DataElement.Value (some s))

/-- Decoding each item of a document array. -/
def decodeElementList : Nat → List JValue → Except DecodeError (List DataElement)
  | _, [] => .ok []
  | fuel, v :: rest => do
    let e ← decodeElement fuel v
    let es ← decodeElementList fuel rest
    .ok (e :: es)

/-- Decoding each field of a document map (keys land as string scalars). -/
def decodeElementFields :
    Nat → List (String × JValue) →
      Except DecodeError (List (DataValue × DataElement))
  | _, [] => .ok []
  | fuel, (k, v) :: rest => do
    let e ← decodeElement fuel v
    let fs ← decodeElementFields fuel rest
    .ok ((DataValue.Str k, e) :: fs)
end

mutual
/-- Modelled from the spec: decoding a predicate tree, trying the shapes in
the decode priority of section 6 — the explicitly keyed tree shapes
(`not`, `and`, `or`, `type`), then the structural shapes, then the keyed
scalar shapes, then the bare range shapes.  `compile` is the external
regular-expression engine: a pattern that fails to compile is the
invalid-pattern failure.  Fuel bounds the recursion depth; running out is
the excessive-nesting failure. -/
def decodeQuery (compile : String → Option (String → Bool)) :
    Nat → JValue → Except DecodeError Query
  | 0, _ => .error .excessiveNesting
  | fuel + 1, j =>
    match j with
    | .obj [("not", inner)] => do
      let q ← decodeQuery compile fuel inner
      .ok (Query.Not q)
    | .obj [("and", .arr items)] => do
      let qs ← decodeQueryList compile fuel items
      .ok (Query.And qs)
    | .obj [("or", .arr items)] => do
      let qs ← decodeQueryList compile fuel items
      .ok (Query.Or qs)
    | .obj [("type", t)] => do
      let tag ← decodeType t
      .ok (Query.Typ tag)
    | .obj [("has_key", .obj [("key", k)])] => do
      let key ← decodeValue k
      .ok (Query.Element (QueryElement.HasKey key none))
    | .obj [("has_key", .obj [("key", k), ("value", v)])] => do
      let key ← decodeValue k
      let q ← decodeQuery compile fuel v
      .ok (Query.Element (QueryElement.HasKey key (some q)))
    | .obj [("array_len", r)] => do
      let qn ← decodeRange r
      .ok (Query.Element (QueryElement.ArrayLen qn))
    | .obj [("contains_element", d)] => do
      let e ← decodeElement fuel d
      .ok (Query.Element (QueryElement.ContainsElement e))
    | .obj [("equal", s)] => do
      let val ← decodeValue s
      .ok (Query.Value (QueryValue.Equal val))
    | .obj [("starts_with", s)] => do
      let val ← decodeValue s
      .ok (Query.Value (QueryValue.StartsWith val))
    | .obj [("ends_with", s)] => do
      let val ← decodeValue s
      .ok (Query.Value (QueryValue.EndsWith val))
    | .obj [("contains_value", s)] => do
      let val ← decodeValue s
      .ok (Query.Value (QueryValue.ContainsValue val))
    | .obj [("pattern", .str src)] =>
      match compile src with
      | some m => .ok (Query.Value (QueryValue.Pattern m))
      | none => .error .invalidPattern
    | other => do
      let qn ← decodeRange other
      .ok (Query.Value (QueryValue.NumberOp qn))

/-- Decoding each child of an `and`/`or` sequence. -/
def decodeQueryList (compile : String → Option (String → Bool)) :
    Nat → List JValue → Except DecodeError (List Query)
  | _, [] => .ok []
  | fuel, v :: rest => do
    let q ← decodeQuery compile fuel v
    let qs ← decodeQueryList compile fuel rest
    .ok (q :: qs)
end

/-- Modelled from the spec: the decode boundary.  A request whose nesting
depth exceeds the configured maximum is rejected with the
excessive-nesting failure before any shape is tried (and so before any
record could be evaluated); otherwise the priority decoder runs with the
maximum as its recursion fuel. -/
def decodeRequest (compile : String → Option (String → Bool))
    (maxDepth : Nat) (j : JValue) : Except DecodeError Query :=
  if maxDepth < j.depth then .error .excessiveNesting
  else decodeQuery compile maxDepth j

/-- A concrete transaction used to exercise the round-trip theorem. -/
def exampleTransaction : Transaction :=
  ⟨0, ⟨List.replicate 32 0⟩,
    TransactionType.Burn ⟨⟨List.replicate 32 7⟩, 5⟩, 1, 2⟩

/-!
## Theorems
-/

/-- C3: `EndsWith` evaluates the starts-with relation on the canonical
string renderings (the operand is a prefix of the input), and in
particular `EndsWith("lo")` does not match `"hello"`. -/
theorem ends_with_checks_starts_with :
    (∀ op v : DataValue, ((QueryValue.EndsWith op).verify v = true ↔
      op.to_string.data <+: v.to_string.data)) ∧
    (QueryValue.EndsWith (DataValue.Str "lo")).verify
      (DataValue.Str "hello") = false := by
  constructor
  · intro op v
    simp [QueryValue.verify, strStarts, List.isPrefixOf_iff_prefix]
  · decide

/-- C4: `HasKey` with no nested predicate is false on every document, even
a field map containing the key; with a nested predicate and a present key
the result is the predicate's document-shaped evaluation of the field's
value; an absent key or a non-field-map document yields false. -/
theorem has_key_semantics :
    (∀ (d : DataElement) (k : DataValue),
      (QueryElement.HasKey k none).verify d = false) ∧
    (∀ (k : DataValue) (q : Query) (flds : List (DataValue × DataElement))
      (v : DataElement), fieldsGet flds k = some v →
      (QueryElement.HasKey k (some q)).verify (DataElement.Fields flds) =
        q.verify_element v) ∧
    (∀ (k : DataValue) (q : Option Query)
      (flds : List (DataValue × DataElement)), fieldsGet flds k = none →
      (QueryElement.HasKey k q).verify (DataElement.Fields flds) = false) ∧
    (∀ (k : DataValue) (q : Option Query) (ov : Option DataValue),
      (QueryElement.HasKey k q).verify (DataElement.Value ov) = false) ∧
    (∀ (k : DataValue) (q : Option Query) (arr : List DataElement),
      (QueryElement.HasKey k q).verify (DataElement.Array arr) = false) := by
  refine ⟨?_, ?_, ?_, ?_, ?_⟩
  · intro d k
    cases d with
    | Fields flds =>
      rw [QueryElement.verify.eq_1]
      cases fieldsGet flds k <;> simp
    | Value v => simp [QueryElement.verify]
    | Array a => simp [QueryElement.verify]
  · intro k q flds v h
    rw [QueryElement.verify.eq_1, h]
  · intro k q flds h
    rw [QueryElement.verify.eq_1, h]
  · intro k q ov
    simp [QueryElement.verify]
  · intro k q arr
    simp [QueryElement.verify]

/-- C5: the empty conjunction is vacuously true and the empty disjunction
vacuously false, under both the document-shaped and the scalar-shaped
entry point. -/
theorem empty_and_or_vacuous :
    (∀ d : DataElement, (Query.And []).verify_element d = true) ∧
    (∀ d : DataElement, (Query.Or []).verify_element d = false) ∧
    (∀ v : DataValue, (Query.And []).verify_value v = true) ∧
    (∀ v : DataValue, (Query.Or []).verify_value v = false) := by
  refine ⟨fun d => ?_, fun d => ?_, fun v => ?_, fun v => ?_⟩
  · simp [Query.verify_element, Query.andElement]
  · simp [Query.verify_element, Query.orElement]
  · simp [Query.verify_value, Query.andValue]
  · simp [Query.verify_value, Query.orValue]

/-- C6: the `Equal` predicate is structural equality — it matches exactly
when input and operand agree in variant tag and value; in particular there
is no cross-width numeric equality. -/
theorem equal_is_structural :
    (∀ a b : DataValue, ((QueryValue.Equal a).verify b = true ↔ b = a)) ∧
    (QueryValue.Equal (DataValue.U64 5)).verify (DataValue.U8 5) = false ∧
    (QueryValue.Equal (DataValue.U64 5)).verify (DataValue.U64 5) = true := by
  refine ⟨fun a b => ?_, by decide, by decide⟩
  simp [QueryValue.verify]

/-- C7: the scalar-shaped entry point is false on every tree whose root is
the structural (`Element`) variant, and `is_for_element` is true exactly
for such a root. -/
theorem element_root_scalar_mode :
    (∀ (qe : QueryElement) (v : DataValue),
      (Query.Element qe).verify_value v = false) ∧
    (∀ q : Query, q.is_for_element = true ↔ ∃ qe, q = Query.Element qe) := by
  constructor
  · intro qe v
    simp [Query.verify_value]
  · intro q
    cases q <;> simp [Query.is_for_element]

/-- C8: evaluation is total (every `verify` function is a Lean function
into `Bool`) and fail-closed: every shape or type mismatch between a
predicate and its input — a scalar predicate on an empty leaf, field map
or array; a structural predicate on the wrong document shape; a range
predicate on a non-numeric scalar — evaluates to `false` rather than
faulting. -/
theorem evaluation_fail_closed :
    (∀ q : QueryValue,
      (Query.Value q).verify_element (DataElement.Value none) = false) ∧
    (∀ (q : QueryValue) (flds : List (DataValue × DataElement)),
      (Query.Value q).verify_element (DataElement.Fields flds) = false) ∧
    (∀ (q : QueryValue) (arr : List DataElement),
      (Query.Value q).verify_element (DataElement.Array arr) = false) ∧
    (∀ (k : DataValue) (oq : Option Query) (ov : Option DataValue),
      (QueryElement.HasKey k oq).verify (DataElement.Value ov) = false) ∧
    (∀ (k : DataValue) (oq : Option Query) (arr : List DataElement),
      (QueryElement.HasKey k oq).verify (DataElement.Array arr) = false) ∧
    (∀ (qn : QueryNumber) (ov : Option DataValue),
      (QueryElement.ArrayLen qn).verify (DataElement.Value ov) = false) ∧
    (∀ (qn : QueryNumber) (flds : List (DataValue × DataElement)),
      (QueryElement.ArrayLen qn).verify (DataElement.Fields flds) = false) ∧
    (∀ (e : DataElement) (ov : Option DataValue),
      (QueryElement.ContainsElement e).verify (DataElement.Value ov) = false) ∧
    (∀ (e : DataElement) (flds : List (DataValue × DataElement)),
      (QueryElement.ContainsElement e).verify (DataElement.Fields flds) = false) ∧
    (∀ (qn : QueryNumber) (s : String),
      qn.verify (DataValue.Str s) = false) ∧
    (∀ (qn : QueryNumber) (b : Bool),
      qn.verify (DataValue.Boolean b) = false) := by
  refine ⟨?_, ?_, ?_, ?_, ?_, ?_, ?_, ?_, ?_, ?_, ?_⟩
  · intro q; simp [Query.verify_element]
  · intro q flds; simp [Query.verify_element]
  · intro q arr; simp [Query.verify_element]
  · intro k oq ov; simp [QueryElement.verify]
  · intro k oq arr; simp [QueryElement.verify]
  · intro qn ov; simp [QueryElement.verify]
  · intro qn flds; simp [QueryElement.verify]
  · intro e ov; simp [QueryElement.verify]
  · intro e flds; simp [QueryElement.verify]
  · intro qn s; cases qn <;> simp [QueryNumber.verify]
  · intro qn b; cases qn <;> simp [QueryNumber.verify]

/-- C1 counterexample: with threshold 256 the `U8` arm of
`QueryNumber::verify` compares against `256 as u8 = 0`, so `Above(256)`
matches `U8(1)` although the widened comparison `1 > 256` is false — the
claimed widening property fails at this input. -/
theorem range_widen_counterexample :
    (QueryNumber.Above 256).verify (DataValue.U8 1) = true ∧
    (DataValue.U8 1).widen = some 1 ∧ ¬(1 > 256) := by
  decide

/-- C1 as amended: `QueryNumber::verify` compares at the scalar's own
width, with the `usize` threshold cast (truncated `% 2 ^ w`) to that
width — `Above(t).verify(v) == (widen(v) > cast_w(t))` and analogously for
the other three operators; this agrees with the claimed widened comparison
exactly when the threshold fits in the scalar's width. -/
theorem range_verify_casts_threshold (t : Nat) (v : DataValue) (n : Nat)
    (h : v.widen = some n) :
    ((QueryNumber.Above t).verify v = decide (n > castThreshold v t)) ∧
    ((QueryNumber.AboveOrEqual t).verify v = decide (n ≥ castThreshold v t)) ∧
    ((QueryNumber.Below t).verify v = decide (n < castThreshold v t)) ∧
    ((QueryNumber.BelowOrEqual t).verify v = decide (n ≤ castThreshold v t)) := by
  cases v <;> simp [DataValue.widen] at h <;> subst h <;>
    simp [QueryNumber.verify, castThreshold]

/-- C1 witness: the amended statement evaluated at threshold 256 against
`U8(1)`. -/
theorem range_verify_casts_threshold_witness :
    ((QueryNumber.Above 256).verify (DataValue.U8 1) =
      decide (1 > castThreshold (DataValue.U8 1) 256)) ∧
    ((QueryNumber.AboveOrEqual 256).verify (DataValue.U8 1) =
      decide (1 ≥ castThreshold (DataValue.U8 1) 256)) ∧
    ((QueryNumber.Below 256).verify (DataValue.U8 1) =
      decide (1 < castThreshold (DataValue.U8 1) 256)) ∧
    ((QueryNumber.BelowOrEqual 256).verify (DataValue.U8 1) =
      decide (1 ≤ castThreshold (DataValue.U8 1) 256)) :=
  range_verify_casts_threshold 256 (DataValue.U8 1) 1 rfl

/-- C2: a request whose nesting depth exceeds the configured maximum is
rejected at the decode boundary with the excessive-nesting failure — no
`Query` value is produced, so no record can be evaluated. -/
theorem decode_depth_bound (compile : String → Option (String → Bool))
    (maxDepth : Nat) (j : JValue) (h : maxDepth < j.depth) :
    decodeRequest compile maxDepth j = .error .excessiveNesting := by
  simp [decodeRequest, h]

/-- C2 witness: a two-level `not` request against a configured maximum
depth of 1. -/
theorem decode_depth_bound_witness :
    decodeRequest (fun _ => none) 1
      (JValue.obj [("not", JValue.boolean true)]) =
      .error .excessiveNesting :=
  decode_depth_bound (fun _ => none) 1 _
    (by rw [JValue.depth.eq_5, JValue.depthFields.eq_2, JValue.depth.eq_3,
            JValue.depthFields.eq_1]; simp)

/-- C9: `Not` is boolean negation of its child in both evaluation
modes. -/
theorem not_is_negation :
    (∀ (p : Query) (d : DataElement),
      (Query.Not p).verify_element d = !(p.verify_element d)) ∧
    (∀ (p : Query) (v : DataValue),
      (Query.Not p).verify_value v = !(p.verify_value v)) := by
  constructor
  · intro p d
    simp [Query.verify_element]
  · intro p v
    simp [Query.verify_value]

/-- Sequencing after a successful read continues with the read value. -/
theorem except_bind_ok {ε α β : Type} (x : α) (f : α → Except ε β) :
    (Except.ok x : Except ε α) >>= f = f x := rfl

/-- Sequencing after a failed read propagates the failure. -/
theorem except_bind_error {ε α β : Type} (e : ε) (f : α → Except ε β) :
    (Except.error e : Except ε α) >>= f = Except.error e := rfl

/-- Reading exactly the bytes that were written consumes them and leaves
the rest of the stream. -/
theorem readExact_append (l rest : Bytes) (n : Nat) (h : l.length = n) :
    readExact n (l ++ rest) = .ok (l, rest) := by
  subst h
  simp [readExact, List.take_left, List.drop_left]

/-- A 32-byte value round-trips through `read32`. -/
theorem read32_append (l rest : Bytes) (h : l.length = 32) :
    read32 (l ++ rest) = .ok (l, rest) := by
  have := readExact_append l rest 32 h
  simpa [read32] using this

/-- The presence byte 1 reads back as `true`. -/
theorem read_bool_one (rest : Bytes) : read_bool (1 :: rest) = .ok (true, rest) := rfl

/-- The presence byte 0 reads back as `false`. -/
theorem read_bool_zero (rest : Bytes) : read_bool (0 :: rest) = .ok (false, rest) := rfl

/-- A `u16` below `2 ^ 16` round-trips through its big-endian bytes. -/
theorem read_u16_u16be (n : Nat) (rest : Bytes) (h : n < 2 ^ 16) :
    read_u16 (u16be n ++ rest) = .ok (n, rest) := by
  have h2 : readExact 2 (u16be n ++ rest) = .ok (u16be n, rest) :=
    readExact_append _ _ _ (by simp [u16be])
  have h3 : bytesToNat (u16be n) = n := by
    simp [bytesToNat, u16be]
    omega
  simp [read_u16, h2, except_bind_ok, h3]

/-- A `u64` below `2 ^ 64` round-trips through its big-endian bytes. -/
theorem read_u64_u64be (n : Nat) (rest : Bytes) (h : n < 2 ^ 64) :
    read_u64 (u64be n ++ rest) = .ok (n, rest) := by
  have h2 : readExact 8 (u64be n ++ rest) = .ok (u64be n, rest) :=
    readExact_append _ _ _ (by simp [u64be])
  have h3 : bytesToNat (u64be n) = n := by
    simp [bytesToNat, u64be]
    omega
  simp [read_u64, h2, except_bind_ok, h3]

/-- A well-formed transfer payload round-trips through its wire bytes. -/
theorem transferPayload_read_write (p : TransferPayload) (rest : Bytes)
    (h : p.wf) :
    TransferPayload.read (p.write ++ rest) = .ok (p, rest) := by
  obtain ⟨⟨ab⟩, ⟨db⟩, ed, ⟨cb⟩, ⟨sb⟩, ⟨rb⟩⟩ := p
  obtain ⟨ha, hd, hc, hs, hr, he⟩ := h
  replace ha : ab.length = 32 := ha
  replace hd : db.length = 32 := hd
  replace hc : cb.length = 32 := hc
  replace hs : sb.length = 32 := hs
  replace hr : rb.length = 32 := hr
  cases ed with
  | none =>
    simp [TransferPayload.read, TransferPayload.write, List.append_assoc,
      except_bind_ok, read32_append _ _ ha, read32_append _ _ hd,
      read32_append _ _ hc, read32_append _ _ hs, read32_append _ _ hr,
      read_bool_zero]
  | some extra =>
    have hlim : extra.length ≤ EXTRA_DATA_LIMIT_SIZE := he extra rfl
    have h16 : extra.length < 2 ^ 16 := by
      simp [EXTRA_DATA_LIMIT_SIZE] at hlim
      omega
    have hng : ¬(extra.length > EXTRA_DATA_LIMIT_SIZE) := by
      simp [EXTRA_DATA_LIMIT_SIZE] at hlim ⊢
      omega
    simp [TransferPayload.read, TransferPayload.write, List.append_assoc,
      except_bind_ok, read32_append _ _ ha, read32_append _ _ hd,
      read32_append _ _ hc, read32_append _ _ hs, read32_append _ _ hr,
      read_bool_one, read_u16_u16be _ _ h16, hng,
      readExact_append _ _ _ rfl]

/-- A well-formed burn payload round-trips through its wire bytes. -/
theorem burnPayload_read_write (p : BurnPayload) (rest : Bytes)
    (h1 : p.asset.bytes.length = 32) (h2 : p.amount < 2 ^ 64) :
    BurnPayload.read (p.write ++ rest) = .ok (p, rest) := by
  obtain ⟨⟨ab⟩, amount⟩ := p
  replace h1 : ab.length = 32 := h1
  replace h2 : amount < 2 ^ 64 := h2
  simp [BurnPayload.read, BurnPayload.write, List.append_assoc,
    except_bind_ok, read32_append _ _ h1, read_u64_u64be _ _ h2]

/-- A sequence of well-formed transfers round-trips through the
write/read loops. -/
theorem readTransfers_writeTransfers (txs : List TransferPayload)
    (rest : Bytes) (h : ∀ tx ∈ txs, tx.wf) :
    readTransfers txs.length (writeTransfers txs ++ rest) = .ok (txs, rest) := by
  induction txs with
  | nil => simp [writeTransfers, readTransfers]
  | cons tx txs ih =>
    have htx : tx.wf := h tx (List.mem_cons_self tx txs)
    have hrest : ∀ t ∈ txs, t.wf := fun t ht => h t (List.mem_cons_of_mem _ ht)
    simp [writeTransfers, readTransfers, List.append_assoc, except_bind_ok,
      transferPayload_read_write tx _ htx, ih hrest]

/-- A well-formed payload type round-trips through its wire bytes. -/
theorem transactionType_read_write (d : TransactionType) (rest : Bytes)
    (h : d.wf) :
    TransactionType.read (d.write ++ rest) = .ok (d, rest) := by
  cases d with
  | Burn payload =>
    obtain ⟨h1, h2⟩ := h
    simp [TransactionType.read, TransactionType.write, read_u8,
      List.append_assoc, except_bind_ok, burnPayload_read_write _ _ h1 h2]
  | Transfers txs =>
    obtain ⟨h1, h2, h3⟩ := h
    replace h2 : txs.length ≤ 255 := h2
    have hmod : txs.length % 256 = txs.length := by omega
    have hguard : ¬(txs.length = 0 ∨ txs.length > MAX_TRANSFER_COUNT) := by
      simp only [MAX_TRANSFER_COUNT]
      omega
    simp [TransactionType.read, TransactionType.write, read_u8,
      List.append_assoc, except_bind_ok, hmod, hguard,
      readTransfers_writeTransfers txs rest h3]
    constructor
    · intro hnil
      subst hnil
      simp at h1
    · simpa [MAX_TRANSFER_COUNT] using h2

/-- A well-formed transaction round-trips, leaving any trailing bytes. -/
theorem transaction_read_write_append (tx : Transaction) (rest : Bytes)
    (h : tx.wf) :
    Transaction.read (tx.write ++ rest) = .ok (tx, rest) := by
  obtain ⟨version, ⟨sbb⟩, data, fee, nonce⟩ := tx
  obtain ⟨hv, hs, hd, hf, hn⟩ := h
  replace hv : version = 0 := hv
  replace hs : sbb.length = 32 := hs
  replace hd : TransactionType.wf data := hd
  replace hf : fee < 2 ^ 64 := hf
  replace hn : nonce < 2 ^ 64 := hn
  subst hv
  simp [Transaction.read, Transaction.write, read_u8, List.append_assoc,
    except_bind_ok, read32_append _ _ hs, transactionType_read_write _ _ hd,
    read_u64_u64be _ _ hf, read_u64_u64be _ _ hn]

/-- C10: for a version-0 transaction whose payload is a burn, or between 1
and 255 transfers each with at most 1024 bytes of extra data, reading back
the bytes the serializer writes succeeds and yields the original
transaction with the stream exhausted. -/
theorem transaction_serializer_roundtrip (tx : Transaction) (h : tx.wf) :
    Transaction.read (Transaction.write tx) = .ok (tx, []) := by
  have := transaction_read_write_append tx [] h
  simpa using this

/-- C10 witness: the round-trip evaluated on a concrete version-0 burn
transaction. -/
theorem transaction_serializer_roundtrip_witness :
    Transaction.read (Transaction.write exampleTransaction) =
      .ok (exampleTransaction, []) :=
  transaction_serializer_roundtrip exampleTransaction
    (by simp [Transaction.wf, TransactionType.wf, exampleTransaction])

end Xelis
